import Mathlib

/-!
# Verification of the obsrv protocol connector layer

Shallow embedding of `src/obsrv/protocols/pilar/pilar_connector.py` (pooled
TCP connector) and `src/obsrv/protocols/iris_ccd/iris_ccd_connector.py`
(UDP datagram connector), with theorems checking the natural-language
specification against the code.

Modelling conventions:
* Python strings are `List Char` (the repository's wire traffic is ASCII);
  UDP datagram bytes are `List Nat`.
* `asyncio.Queue` is modelled as a FIFO list together with its `maxsize`
  (`0` = unbounded, the default of `asyncio.Queue()`), reproducing the
  exact semantics of `Queue.full()` / `Queue.put()` / `Queue.get()`.
* Awaited I/O results (peer response lines, datagrams, pool-wait timeouts)
  are passed in as explicit parameters, so every connector operation is a
  pure function of its state and its environment's answers.
-/

deriving instance DecidableEq for Except

namespace Obsrv

/-- Python `asyncio.Queue` (FIFO).  `maxsize = 0` means unbounded, which is
what `asyncio.Queue()` with no argument creates - exactly what
`PilarConnector.__init__` does for both `_connection_pool` and `_id_pool`. -/
structure AQueue (α : Type) where
  maxsize : Nat
  items : List α
deriving DecidableEq, Repr

/-- `asyncio.Queue.full()` from CPython: `False` whenever `maxsize <= 0`,
otherwise `qsize() >= maxsize`. -/
def AQueue.full {α : Type} (q : AQueue α) : Bool :=
  if q.maxsize = 0 then false else decide (q.maxsize ≤ q.items.length)

/-- `Queue.put` appends at the back (FIFO). -/
def AQueue.put {α : Type} (q : AQueue α) (x : α) : AQueue α :=
  { q with items := q.items ++ [x] }

/-- Python `str.strip()` whitespace class (the characters that occur in this
protocol's traffic). -/
def isPySpace (c : Char) : Bool :=
  c = ' ' || c = '\t' || c = '\n' || c = '\r'

/-- Python `str.strip()`: drop whitespace from both ends. -/
def trimChars (l : List Char) : List Char :=
  ((l.dropWhile isPySpace).reverse.dropWhile isPySpace).reverse

/-- Python `needle in haystack` (substring containment). -/
def containsSubChars (needle : List Char) : List Char → Bool
  | [] => needle.isEmpty
  | c :: rest => needle.isPrefixOf (c :: rest) || containsSubChars needle rest

/-! ## PilarConnection.execute - the correlated response loop -/

/-- Errors that `PilarConnection.execute` can raise:
`RuntimeError("Pilar command failed: ...")`,
`ConnectionAbortedError("Pilar connection closed unexpectedly.")`, and the
`asyncio.TimeoutError` of the `wait_for(readline)`. -/
inductive PilarWireError
  | commandFailed
  | connectionClosed
  | responseTimeout
deriving DecidableEq, Repr

/-- Result of processing one response line inside the `while True` loop. -/
inductive LoopStep
  | cont (pending : Option (List Char))
  | done (value : List Char)
  | fail
deriving DecidableEq, Repr

/-- `f"{cmd_id} "` - the ID tag a response line must carry. -/
def pilarIdTag (cmdId : Int) : List Char := (toString cmdId).data ++ [' ']

/-- `f"{cmd_id} COMMAND COMPLETE"`. -/
def pilarCompleteTag (cmdId : Int) : List Char :=
  (toString cmdId).data ++ " COMMAND COMPLETE".data

/-- `f"{cmd_id} COMMAND FAILED"`. -/
def pilarFailedTag (cmdId : Int) : List Char :=
  (toString cmdId).data ++ " COMMAND FAILED".data

/-- Python `response_line.split("=", 1)[1].strip()`: everything after the
first `=`, stripped. -/
def pilarRhs (line : List Char) : List Char :=
  trimChars ((line.dropWhile (fun c => c ≠ '=')).tail)

/-- One iteration of the response loop of `PilarConnection.execute`
(pilar_connector.py lines 27-38), for an already `strip()`ped line:
first the value-capture `if` (ID tag prefix and a `=` anywhere in the line),
then the `COMMAND COMPLETE` check (returning the captured value or `"OK"`),
then the `COMMAND FAILED` check, else keep looping. -/
def pilarLineStep (cmdId : Int) (line : List Char) (pending : Option (List Char)) :
    LoopStep :=
  let pending1 :=
    if (pilarIdTag cmdId).isPrefixOf line && line.contains '=' then
      some (pilarRhs line)
    else pending
  if (pilarCompleteTag cmdId).isPrefixOf line then
    .done (pending1.getD "OK".data)
  else if (pilarFailedTag cmdId).isPrefixOf line then
    .fail
  else
    .cont pending1

/-- The full response loop of `PilarConnection.execute`: consume the peer's
reply lines in order (each `readline` result is `strip()`ped first).
Running out of scripted lines models the next `wait_for(readline)` hitting
its timeout. -/
def pilarExecLoop (cmdId : Int) (pending : Option (List Char)) :
    List (List Char) → Except PilarWireError (List Char)
  | [] => .error .responseTimeout
  | raw :: rest =>
    match pilarLineStep cmdId (trimChars raw) pending with
    | .cont p => pilarExecLoop cmdId p rest
    | .done v => .ok v
    | .fail => .error .commandFailed

/-- The request frame `f"{cmd_id} {command_str}\n"` written by
`PilarConnection.execute` before the response loop. -/
def pilarRequestFrame (cmdId : Int) (commandStr : List Char) : List Char :=
  (toString cmdId).data ++ [' '] ++ commandStr ++ ['\n']

/-! ## PilarConnector state, connect / disconnect -/

/-- The mutable state of a `PilarConnector`: `_connected`, `_id_pool` and
`_connection_pool` (connections are abstracted to integer tokens; a
`PilarConnection` object is always truthy in Python). -/
structure PilarState where
  connected : Bool
  idPool : AQueue Int
  connPool : AQueue Nat
deriving DecidableEq, Repr

/-- The state right after `PilarConnector.__init__`: not connected, and both
pools are `asyncio.Queue()` - unbounded (`maxsize = 0`) and empty. -/
def pilarInit : PilarState :=
  { connected := false
    idPool := { maxsize := 0, items := [] }
    connPool := { maxsize := 0, items := [] } }

/-- `range(lo, hi + 1)` over the configured inclusive ID range. -/
def intRange (lo hi : Int) : List Int :=
  (List.range (hi + 1 - lo).toNat).map (fun k => lo + k)

/-- `PilarConnector.disconnect` (lines 114-122): early-out when already
disconnected with an empty pool, otherwise clear `_connected` and drain the
connection pool, closing each drained session.  The ID pool is untouched. -/
def pilarDisconnect (st : PilarState) : PilarState :=
  if !st.connected && st.connPool.items.isEmpty then st
  else { st with connected := false, connPool := { st.connPool with items := [] } }

/-- The `for conn in connections: if conn: await self._connection_pool.put(conn)`
loop of `connect`: sessions whose creation failed (returned `None`) are
skipped. -/
def pilarAddCreated (q : AQueue Nat) (creations : List (Option Nat)) : AQueue Nat :=
  creations.foldl (fun acc c => match c with | some conn => acc.put conn | none => acc) q

/-- `PilarConnector.connect(host, port)` (lines 97-112).  `creations` is the
list of `_create_pooled_connection()` outcomes gathered for the `pool_size`
tasks (`some token` for a session, `none` when creation failed and `None`
was returned).  After filling the ID pool and adding the successful
sessions, the source tests `self._connection_pool.full()` and either marks
the connector connected or tears everything down via `disconnect`. -/
def pilarConnect (st : PilarState) (idLo idHi : Int) (creations : List (Option Nat)) :
    PilarState × Bool :=
  if st.connected then (st, true)
  else
    let st1 := { st with idPool := (intRange idLo idHi).foldl AQueue.put st.idPool }
    let st2 := { st1 with connPool := pilarAddCreated st1.connPool creations }
    if st2.connPool.full then ({ st2 with connected := true }, true)
    else (pilarDisconnect st2, false)

/-! ## The pooled command executor -/

/-- Exceptions escaping `_execute_on_pooled_connection`:
`ConnectionError("Connector not connected.")` raised up-front;
`TimeoutError("No available connection or ID in the pool.")`, which the
source raises for every `asyncio.TimeoutError` - both pool-acquisition
timeouts and the response-read timeout inside `PilarConnection.execute`;
the `RuntimeError` of a `COMMAND FAILED` line; and the
`ConnectionAbortedError` of an unexpected EOF. -/
inductive PilarExecError
  | notConnected
  | poolTimeout
  | commandFailed
  | connectionClosed
deriving DecidableEq, Repr

/-- Outcome of one `_execute_on_pooled_connection` call: the state after the
`finally` block, the returned value or raised error, and the request frames
actually written to the wire. -/
structure PilarExecResult where
  state : PilarState
  result : Except PilarExecError (List Char)
  sent : List (List Char)
deriving DecidableEq, Repr

/-- `PilarConnector._execute_on_pooled_connection` (lines 135-146).
`idTimedOut` / `connTimedOut` say whether the respective
`wait_for(pool.get(), timeout=pool_get)` hit its timeout (an empty pool can
only end in a timeout, since nothing is returned while we wait); `lines` is
the peer's scripted reply to the request frame.  The `finally` block puts
the connection back unconditionally (`if conn:` - a connection object is
truthy) but puts the ID back only when `if cmd_id:` is truthy, i.e. when
the integer is nonzero. -/
def pilarExecOnPooled (st : PilarState) (commandStr : List Char)
    (idTimedOut connTimedOut : Bool) (lines : List (List Char)) : PilarExecResult :=
  if !st.connected then ⟨st, .error .notConnected, []⟩
  else
    match (if idTimedOut then none else st.idPool.items.head?) with
    | none => ⟨st, .error .poolTimeout, []⟩
    | some cmdId =>
      let st1 : PilarState := { st with idPool := { st.idPool with items := st.idPool.items.tail } }
      match (if connTimedOut then none else st1.connPool.items.head?) with
      | none =>
        let st2 := if cmdId ≠ 0 then { st1 with idPool := st1.idPool.put cmdId } else st1
        ⟨st2, .error .poolTimeout, []⟩
      | some conn =>
        let st2 : PilarState :=
          { st1 with connPool := { st1.connPool with items := st1.connPool.items.tail } }
        let result : Except PilarExecError (List Char) :=
          match pilarExecLoop cmdId none lines with
          | .ok v => .ok v
          | .error .commandFailed => .error .commandFailed
          | .error .connectionClosed => .error .connectionClosed
          | .error .responseTimeout => .error .poolTimeout
        let st3 : PilarState := { st2 with connPool := st2.connPool.put conn }
        let st4 : PilarState :=
          if cmdId ≠ 0 then { st3 with idPool := st3.idPool.put cmdId } else st3
        ⟨st4, result, [pilarRequestFrame cmdId commandStr]⟩

/-! ## The connector boundary: get / put -/

/-- Lookup in a flat string-to-string dict (`dict.get`, or `dict[k]` whose
`KeyError` the caller handles). -/
def lookupKV (m : List (String × String)) (k : String) : Option String :=
  (m.find? (fun p => p.1 == k)).map (fun p => p.2)

/-- `self._command_map[component.kind][variable]` - a two-level dict; a
missing key at either level raises `KeyError` (here `none`). -/
def lookupCmd (m : List (String × List (String × String))) (kind varName : String) :
    Option String :=
  match (m.find? (fun p => p.1 == kind)).map (fun p => p.2) with
  | none => none
  | some sub => lookupKV sub varName

/-- What a `PilarConnector.get` call produces.  `raised` is an exception
escaping `get` itself; the source wraps its whole body in
`try ... except Exception`, so nothing ever escapes. -/
structure PilarGetOutcome where
  state : PilarState
  raised : Option PilarExecError
  value : Option (List Char)
  sent : List (List Char)
deriving DecidableEq, Repr

/-- `PilarConnector.get` (lines 148-155): look the command up, issue
`f"GET {pilar_cmd}"` on a pooled connection, and turn ANY exception
(including the not-connected `ConnectionError` and the pool timeouts) into
a logged `None`. -/
def pilarGetOp (st : PilarState) (cmdMap : List (String × List (String × String)))
    (kind varName : String) (idTimedOut connTimedOut : Bool)
    (lines : List (List Char)) : PilarGetOutcome :=
  match lookupCmd cmdMap kind varName with
  | none => ⟨st, none, none, []⟩
  | some pilarCmd =>
    let er := pilarExecOnPooled st ("GET ".data ++ pilarCmd.data) idTimedOut connTimedOut lines
    match er.result with
    | .ok v => ⟨er.state, none, some v, er.sent⟩
    | .error _ => ⟨er.state, none, none, er.sent⟩

/-- What a `PilarConnector.put` call produces.  The source returns
`{"status": "ok", "value_set": value}` on success and
`{"status": "failed", "error": str(e)}` for any exception; note that the
wire response of the command is not part of either dict. -/
structure PilarPutOutcome where
  state : PilarState
  status : String
  valueSet : Option (List Char)
  sent : List (List Char)
deriving DecidableEq, Repr

/-- `PilarConnector.put` (lines 157-166): look the command up, take the
first keyword-argument value (`list(data.values())[0]`, whose `IndexError`
on empty data is caught like everything else), send
`f"SET {pilar_cmd}={value}"` through `_execute_command_safely`, and wrap
any exception into a failure status.  The resource lock taken by
`_execute_command_safely` serializes scheduling but does not change pools,
so the state effect is that of `_execute_on_pooled_connection`. -/
def pilarPutOp (st : PilarState) (cmdMap : List (String × List (String × String)))
    (kind varName : String) (data : List (String × List Char))
    (idTimedOut connTimedOut : Bool) (lines : List (List Char)) : PilarPutOutcome :=
  match lookupCmd cmdMap kind varName with
  | none => ⟨st, "failed", none, []⟩
  | some pilarCmd =>
    match data.head? with
    | none => ⟨st, "failed", none, []⟩
    | some kv =>
      let value := kv.2
      let cmd := "SET ".data ++ pilarCmd.data ++ ['='] ++ value
      let er := pilarExecOnPooled st cmd idTimedOut connTimedOut lines
      match er.result with
      | .ok _ => ⟨er.state, "ok", some value, er.sent⟩
      | .error _ => ⟨er.state, "failed", none, er.sent⟩

/-! ## Resource locks as wire-event schedules

`_execute_command_safely` (lines 124-133) looks the command variable up in
`_resource_lock_map`; when a resource name is found, the whole exchange
runs under `async with self._resource_locks[resource_name]`.  `get`
(line 152) calls `_execute_on_pooled_connection` directly and never touches
the lock table; only `put` (line 162) goes through
`_execute_command_safely`.  To reason about overlap of wire exchanges we
model each operation as the sequence of scheduling-relevant events it
performs, and quantify over lock-respecting interleavings. -/

/-- A scheduling-relevant event: acquiring / releasing a named resource
lock, sending the request frame, or reading the terminal response line. -/
inductive WireEvent
  | lockAcq (r : String)
  | lockRel (r : String)
  | send (tid : Nat)
  | terminal (tid : Nat)
deriving DecidableEq, Repr

/-- Events of `PilarConnector.get`: straight to
`_execute_on_pooled_connection`; no lock is ever consulted. -/
def pilarGetWireEvents (tid : Nat) : List WireEvent :=
  [.send tid, .terminal tid]

/-- Events of `PilarConnector.put`, which routes through
`_execute_command_safely`: if `_resource_lock_map` maps the command
variable to a resource name, the exchange is wrapped in that resource's
lock; otherwise it runs unsynchronized. -/
def pilarPutWireEvents (resourceLockMap : List (String × String))
    (pilarCmdVariable : String) (tid : Nat) : List WireEvent :=
  match lookupKV resourceLockMap pilarCmdVariable with
  | some r => [.lockAcq r, .send tid, .terminal tid, .lockRel r]
  | none => [.send tid, .terminal tid]

/-- All interleavings of two event sequences, with explicit fuel for
structural recursion (enough fuel is the combined length). -/
def interleavingsAux : Nat → List WireEvent → List WireEvent → List (List WireEvent)
  | _, [], bs => [bs]
  | _, a :: as, [] => [a :: as]
  | 0, as, bs => [as ++ bs]
  | fuel + 1, a :: as, b :: bs =>
    (interleavingsAux fuel as (b :: bs)).map (fun t => a :: t) ++
      (interleavingsAux fuel (a :: as) bs).map (fun t => b :: t)

/-- All interleavings of two event sequences (each task's own order is
preserved - one coroutine's awaits never reorder its own steps). -/
def interleavings (as bs : List WireEvent) : List (List WireEvent) :=
  interleavingsAux (as.length + bs.length) as bs

/-- A trace respects the mutexes: a lock can only be acquired while no one
holds it (`asyncio.Lock` blocks the second acquirer until release). -/
def lockValid (held : List String) : List WireEvent → Bool
  | [] => true
  | .lockAcq r :: es => !held.contains r && lockValid (r :: held) es
  | .lockRel r :: es => lockValid (held.erase r) es
  | .send _ :: es => lockValid held es
  | .terminal _ :: es => lockValid held es

/-- The two exchanges do not overlap: one task's terminal line precedes the
other task's send. -/
def exchangesSerialized (tr : List WireEvent) (t1 t2 : Nat) : Bool :=
  tr.indexOf (.terminal t1) < tr.indexOf (.send t2) ||
    tr.indexOf (.terminal t2) < tr.indexOf (.send t1)

/-! ## TLS session negotiation (`_create_pooled_connection`) -/

/-- What one `_create_pooled_connection()` call did: whether the client
wrote `b"ENC TLS\n"`, whether `writer.start_tls` was reached, and the
created session (`none` when the `except Exception` handler caught an error
and returned `None` - e.g. the `ConnectionError("Pilar TLS negotiation
failed.")`). -/
structure TlsNegotiationOutcome where
  sentEncRequest : Bool
  tlsHandshake : Bool
  session : Option Nat
deriving DecidableEq, Repr

/-- `PilarConnector._create_pooled_connection` (lines 77-95), given the
greeting read after the TCP connect and the reply line to a possible
`ENC TLS` request: if `b"TLS" in welcome_message`, send `b"ENC TLS\n"`;
unless `b"ENC OK" in enc_response`, raise a `ConnectionError` (caught below,
returning `None`); on acknowledgement perform `start_tls` on the same
socket and return the session. -/
def pilarCreatePooledConnection (welcome encReply : List Char) (connToken : Nat) :
    TlsNegotiationOutcome :=
  if containsSubChars "TLS".data welcome then
    if containsSubChars "ENC OK".data encReply then
      ⟨true, true, some connToken⟩
    else
      ⟨true, false, none⟩
  else
    ⟨false, false, some connToken⟩

/-! ## Actions (`call`) -/

/-- A YAML scalar used as a step value: the `isinstance(value, str)` check
in both connectors distinguishes strings from other scalars. -/
inductive StepVal
  | str (s : String)
  | num (n : Int)
deriving DecidableEq, Repr

/-- `Char.ofNat 123` and `125`: the placeholder delimiters. -/
def braceOpen : Char := Char.ofNat 123

def braceClose : Char := Char.ofNat 125

/-- Python `s.strip("\x7b\x7d")`: drop brace characters from both ends. -/
def stripBraces (l : List Char) : List Char :=
  ((l.dropWhile (fun c => c = braceOpen || c = braceClose)).reverse.dropWhile
      (fun c => c = braceOpen || c = braceClose)).reverse

/-- `arg_name in data` / `data[arg_name]` over the keyword arguments of
`call` (keys are strings, values modelled as strings). -/
def lookupData (data : List (String × List Char)) (k : List Char) : Option (List Char) :=
  (data.find? (fun p => p.1.data == k)).map (fun p => p.2)

/-- The structured status dict returned by `call`: `status`, the optional
`response` entry (present only where the source puts one in the dict) and
the optional `error` entry. -/
structure CallResult where
  status : String
  response : Option (List Char)
  errorMsg : Option (List Char)
deriving DecidableEq, Repr

/-- One step of an IRIS CCD action: `{"command": ..., "value": ...}` where
`value` may be absent. -/
structure IrisStep where
  command : String
  value : Option StepVal
deriving DecidableEq, Repr

/-- Step-command construction inside `IrisCcdConnector.call`
(lines 148-160): no value -> the bare command; a string value starting with
a brace is a placeholder whose argument must be in `data` (else
`ValueError`, here `.error`); any other value is appended literally. -/
def irisBuildStepCommand (step : IrisStep) (data : List (String × List Char)) :
    Except (List Char) (List Char) :=
  match step.value with
  | none => .ok step.command.data
  | some (.num n) => .ok (step.command.data ++ [' '] ++ (toString n).data)
  | some (.str v) =>
    if v.data.head? = some braceOpen then
      match lookupData data (stripBraces v.data) with
      | none => .error ("Missing argument ".data ++ stripBraces v.data)
      | some x => .ok (step.command.data ++ [' '] ++ x)
    else .ok (step.command.data ++ [' '] ++ v.data)

/-- Errors of the IRIS CCD single-socket primitive `_execute_command`:
the not-connected `ConnectionError`, the response timeout, and the
`RuntimeError` for a response without the success marker. -/
inductive IrisError
  | notConnected
  | responseTimeout
  | unexpectedResponse (resp : String)
deriving DecidableEq, Repr

/-- The step loop of `IrisCcdConnector.call` (lines 146-166).  `wire`
models `_execute_command`'s exchange for a built command (each call sends
exactly one datagram; `sent` records the commands handed to it in order).
A build failure (`ValueError`) or a wire error is caught by the
surrounding `except Exception`, producing `{"status": "failed", ...}`;
otherwise the loop keeps the last response and finally returns
`{"status": f"action_{function}_completed", "response": last_response}`. -/
def irisCallGo (wire : List Char → Except IrisError (List Char))
    (data : List (String × List Char)) (fname : String)
    (lastResp : Option (List Char)) (sent : List (List Char)) :
    List IrisStep → CallResult × List (List Char)
  | [] => (⟨"action_" ++ fname ++ "_completed", lastResp, none⟩, sent)
  | step :: rest =>
    match irisBuildStepCommand step data with
    | .error msg => (⟨"failed", none, some msg⟩, sent)
    | .ok cmd =>
      match wire cmd with
      | .ok r => irisCallGo wire data fname (some r) (sent ++ [cmd]) rest
      | .error _ => (⟨"failed", none, some "execution error".data⟩, sent ++ [cmd])

/-- `IrisCcdConnector.call` (lines 141-166): resolve the action name in the
action map (unknown name -> `{"status": "unknown_function"}` with nothing
sent), then run the step loop starting from `last_response = None`. -/
def irisCall (actions : List (String × List IrisStep)) (fname : String)
    (data : List (String × List Char))
    (wire : List Char → Except IrisError (List Char)) : CallResult × List (List Char) :=
  match (actions.find? (fun p => p.1 == fname)).map (fun p => p.2) with
  | none => (⟨"unknown_function", none, none⟩, [])
  | some steps => irisCallGo wire data fname none [] steps

/-- The command a step resolves to when its build succeeds (used to state
which requests reached the wire). -/
def irisBuiltCmd (data : List (String × List Char)) (s : IrisStep) : List Char :=
  match irisBuildStepCommand s data with
  | .ok c => c
  | .error _ => []

/-- One step of a Pilar action: `{"component": ..., "variable": ...,
"value": ...}` (the `component` entry is read but never used by the
source's loop). -/
structure PilarStep where
  component : String
  varName : String
  value : StepVal
deriving DecidableEq, Repr

/-- Step-value resolution inside `PilarConnector.call` (lines 178-185): a
string that starts with a brace AND ends with one is a placeholder whose
argument must be in `data` (else `ValueError`); anything else is used
literally. -/
def pilarResolveStepValue (v : StepVal) (data : List (String × List Char)) :
    Except (List Char) (List Char) :=
  match v with
  | .num n => .ok (toString n).data
  | .str s =>
    if s.data.head? = some braceOpen && s.data.getLast? = some braceClose then
      match lookupData data (stripBraces s.data) with
      | none => .error ("Missing argument ".data ++ stripBraces s.data)
      | some x => .ok x
    else .ok s.data

/-- Outcome of `PilarConnector.call`: the returned dict, the connector state
after all the `put`s, and the request frames sent on the wire. -/
structure PilarCallOutcome where
  result : CallResult
  state : PilarState
  sent : List (List Char)
deriving DecidableEq, Repr

/-- The step loop of `PilarConnector.call` (lines 174-190).  Each step
resolves its value and is issued via `self.put(component, step_variable,
**{step_variable: final_value})`; `put` never raises (it catches every
exception itself), so only a missing placeholder argument aborts the
action, and on completion the returned dict is
`{"status": f"action_{function}_completed"}` - it carries NO response
entry.  Every exchange is answered with the scripted `lines`. -/
def pilarCallGo (cmdMap : List (String × List (String × String))) (kind fname : String)
    (data : List (String × List Char)) (idTimedOut connTimedOut : Bool)
    (lines : List (List Char)) (st : PilarState) (sent : List (List Char)) :
    List PilarStep → PilarCallOutcome
  | [] => ⟨⟨"action_" ++ fname ++ "_completed", none, none⟩, st, sent⟩
  | step :: rest =>
    match pilarResolveStepValue step.value data with
    | .error msg => ⟨⟨"failed", none, some msg⟩, st, sent⟩
    | .ok finalValue =>
      let p := pilarPutOp st cmdMap kind step.varName [(step.varName, finalValue)]
        idTimedOut connTimedOut lines
      pilarCallGo cmdMap kind fname data idTimedOut connTimedOut lines p.state
        (sent ++ p.sent) rest

/-! ## IRIS CCD UDP connector -/

/-- `command_bytes.ljust(packet_size, b"\x00")`: right-pad with zero bytes
up to the packet size (a longer command is left unchanged, exactly like
`bytes.ljust`). -/
def ljustZero (bs : List Nat) (size : Nat) : List Nat :=
  bs ++ List.replicate (size - bs.length) 0

/-- UTF-8 encoding restricted to the ASCII commands this protocol uses. -/
def encodeAscii (s : String) : List Nat := s.data.map Char.toNat

/-- `data.split(b"\x00", 1)[0]`: the bytes before the first zero byte. -/
def splitFirstZero (bs : List Nat) : List Nat := bs.takeWhile (fun b => b ≠ 0)

/-- Decoding of the zero-stripped response bytes. -/
def decodeAscii (bs : List Nat) : String := ⟨bs.map Char.ofNat⟩

/-- The success marker `"**** OKAY"`. -/
def irisOkayMarker : List Char := "**** OKAY".data

/-- Response classification of `_execute_command` (lines 102-105): a
response starting with the marker is trimmed to `response[10:].strip()`;
anything else raises `RuntimeError` (here `.unexpectedResponse`). -/
def irisDecodeResponse (resp : String) : Except IrisError String :=
  if irisOkayMarker.isPrefixOf resp.data then
    .ok (String.mk (trimChars (resp.data.drop 10)))
  else
    .error (.unexpectedResponse resp)

/-- The connector-level state of `IrisCcdConnector`: the `_connected` flag
(the transport exists exactly while it is set; `disconnect` closes the
transport and clears the flag together). -/
structure IrisState where
  connected : Bool
deriving DecidableEq, Repr

/-- What the peer does for one exchange: answer with a datagram, or stay
silent until `wait_for` times out. -/
inductive IrisWire
  | response (data : List Nat)
  | timeout
deriving DecidableEq, Repr

/-- Outcome of one `IrisCcdConnector._execute_command` call. -/
structure IrisExecOutcome where
  state : IrisState
  result : Except IrisError String
  sentPacket : Option (List Nat)
deriving DecidableEq, Repr

/-- `IrisCcdConnector._execute_command` (lines 86-113), under the in-flight
lock: raise `ConnectionError` when not connected (before the `try`, so no
disconnect happens); otherwise send the zero-padded packet and await the
response.  `asyncio.TimeoutError` is converted to a `TimeoutError` raised
from within the first `except` clause - NOT re-caught, so the connection
stays open.  Any other exception (in particular the `RuntimeError` for a
response without the `"**** OKAY"` marker) hits `except Exception`, which
first awaits `self.disconnect()` (closing the transport and clearing
`_connected`) and then re-raises. -/
def irisExecuteCommand (st : IrisState) (packetSize : Nat) (commandStr : String)
    (wire : IrisWire) : IrisExecOutcome :=
  if !st.connected then ⟨st, .error .notConnected, none⟩
  else
    let packet := ljustZero (encodeAscii commandStr) packetSize
    match wire with
    | .timeout => ⟨st, .error .responseTimeout, some packet⟩
    | .response data =>
      let resp := decodeAscii (splitFirstZero data)
      match irisDecodeResponse resp with
      | .ok payload => ⟨st, .ok payload, some packet⟩
      | .error e => ⟨⟨false⟩, .error e, some packet⟩

/-! ## Helper lemmas -/

/-- `Queue.put` never changes `maxsize`. -/
theorem AQueue.maxsize_put {α : Type} (q : AQueue α) (x : α) :
    (q.put x).maxsize = q.maxsize := rfl

/-- Filling a queue via `put` never changes `maxsize`. -/
theorem maxsize_foldl_put : ∀ (l : List Int) (q : AQueue Int),
    (l.foldl AQueue.put q).maxsize = q.maxsize
  | [], _ => rfl
  | _ :: rest, q => maxsize_foldl_put rest (q.put _)

/-- Adding created sessions never changes the pool's `maxsize`. -/
theorem maxsize_pilarAddCreated : ∀ (creations : List (Option Nat)) (q : AQueue Nat),
    (pilarAddCreated q creations).maxsize = q.maxsize
  | [], _ => rfl
  | none :: rest, q => maxsize_pilarAddCreated rest q
  | some _ :: rest, q => maxsize_pilarAddCreated rest (q.put _)

/-! ## C1 -/

/-- C1: the claim says `connect` marks the connector connected and reports
success if and only if every pool slot was filled.  The code violates the
"if" direction: `_connection_pool` is an unbounded `asyncio.Queue()`
(`maxsize = 0`), so `Queue.full()` is ALWAYS `False` and `connect` tears
the pool down and reports failure even when every session creation
succeeded.  This theorem evaluates the embedded `connect` of a fresh
connector: whatever the ID range and however many creations succeed - here
all of them - it returns `False` and leaves the connector disconnected. -/
theorem C1_connect_fails_even_when_every_slot_filled (idLo idHi : Int)
    (creations : List (Option Nat)) (_hall : ∀ c ∈ creations, c.isSome = true) :
    (pilarConnect pilarInit idLo idHi creations).2 = false ∧
    (pilarConnect pilarInit idLo idHi creations).1.connected = false := by
  have hms : (pilarAddCreated { maxsize := 0, items := ([] : List Nat) } creations).maxsize = 0 :=
    maxsize_pilarAddCreated creations _
  constructor
  · simp [pilarConnect, pilarInit, AQueue.full, hms, pilarDisconnect]
  · simp [pilarConnect, pilarInit, AQueue.full, hms, pilarDisconnect]
    split <;> rfl

/-- Witness for C1: pool size 2, both session creations succeed, and the
connector still reports failure and stays disconnected. -/
theorem C1_witness :
    (pilarConnect pilarInit 1 2 [some 0, some 1]).2 = false ∧
    (pilarConnect pilarInit 1 2 [some 0, some 1]).1.connected = false :=
  C1_connect_fails_even_when_every_slot_filled 1 2 [some 0, some 1] (by decide)

/-! ## C2 -/

/-- A connected state whose configured ID range `[0, 1]` contains `0`, with
one pooled connection, as produced by a (hypothetically successful)
`connect` over that range. -/
def c2State : PilarState :=
  { connected := true
    idPool := { maxsize := 0, items := [0, 1] }
    connPool := { maxsize := 0, items := [5] } }

/-- C2 counterexample: the claim says the checked-out correlation ID is
returned to its pool on every exit path, for every configured inclusive
range `[lo, hi]`.  With range `[0, 1]` the first command checks out ID `0`;
the release guard `if cmd_id:` is Python truthiness, which is false for
`0`, so the ID is never put back: after a successful execution the ID pool
holds only `[1]` and `0` has leaked. -/
theorem C2_counterexample :
    (pilarExecOnPooled c2State "GET X".data false false
        ["0 COMMAND COMPLETE".data]).state.idPool.items = [1] ∧
    (0 : Int) ∉ (pilarExecOnPooled c2State "GET X".data false false
        ["0 COMMAND COMPLETE".data]).state.idPool.items := by
  decide

/-- C2 amended: provided every ID in the pool is nonzero (true for any
configured range with `lo ≥ 1`), each execution - success, protocol
failure, or timeout at either acquisition or response stage - returns the
checked-out ID and Connection exactly once: afterwards the ID pool and the
connection pool hold exactly the same multisets of items as before. -/
theorem C2_pools_restored_for_nonzero_ids (st : PilarState) (cmd : List Char)
    (idTimedOut connTimedOut : Bool) (lines : List (List Char))
    (hz : ∀ i ∈ st.idPool.items, i ≠ 0) :
    ((pilarExecOnPooled st cmd idTimedOut connTimedOut lines).state.idPool.items).Perm
        st.idPool.items ∧
    ((pilarExecOnPooled st cmd idTimedOut connTimedOut lines).state.connPool.items).Perm
        st.connPool.items := by
  rcases hc : st.connected with _ | _
  · constructor <;> simp [pilarExecOnPooled, hc]
  · rcases hi : st.idPool.items with _ | ⟨i, is⟩
    · rcases idTimedOut <;> constructor <;> simp [pilarExecOnPooled, hc, hi]
    · have hiz : i ≠ 0 := hz i (by rw [hi]; exact List.mem_cons_self i is)
      rcases idTimedOut with _ | _
      · rcases hcp : st.connPool.items with _ | ⟨c, cs⟩
        · rcases connTimedOut <;> constructor <;>
            simp [pilarExecOnPooled, hc, hi, hcp, hiz, AQueue.put,
              List.perm_append_singleton]
        · rcases connTimedOut <;> constructor <;>
            simp [pilarExecOnPooled, hc, hi, hcp, hiz, AQueue.put,
              List.perm_append_singleton]
      · constructor <;> simp [pilarExecOnPooled, hc, hi]

/-- Witness for C2's amended theorem: range `[1, 2]`, one connection, a
successful exchange; both pools are restored. -/
theorem C2_witness :
    ((pilarExecOnPooled
        { connected := true
          idPool := { maxsize := 0, items := [1, 2] }
          connPool := { maxsize := 0, items := [5] } }
        "GET X".data false false ["1 COMMAND COMPLETE".data]).state.idPool.items).Perm
      [1, 2] ∧
    ((pilarExecOnPooled
        { connected := true
          idPool := { maxsize := 0, items := [1, 2] }
          connPool := { maxsize := 0, items := [5] } }
        "GET X".data false false ["1 COMMAND COMPLETE".data]).state.connPool.items).Perm
      [5] :=
  C2_pools_restored_for_nonzero_ids
    { connected := true
      idPool := { maxsize := 0, items := [1, 2] }
      connPool := { maxsize := 0, items := [5] } }
    "GET X".data false false ["1 COMMAND COMPLETE".data] (by decide)

/-! ## C5 -/

/-- C5: the response loop of `PilarConnection.execute`.  In order: a line
carrying the ID tag and an `=` captures the text right of the first `=` as
the pending value and keeps waiting; a line starting with
`"<id> COMMAND COMPLETE"` terminates successfully with the captured value
(or the literal `"OK"` when none was captured); a line starting with
`"<id> COMMAND FAILED"` terminates with a command failure; a line carrying
some other ID is ignored.  Finally, the peer script
`"1 MOUNT.RA=12.5000\n1 COMMAND COMPLETE\n"` for ID 1 decodes to
`"12.5000"`. -/
theorem C5_response_loop_rules :
    (∀ (cmdId : Int) (line : List Char) (p : Option (List Char)),
        (pilarIdTag cmdId).isPrefixOf line = true → line.contains '=' = true →
        (pilarCompleteTag cmdId).isPrefixOf line = false →
        (pilarFailedTag cmdId).isPrefixOf line = false →
        pilarLineStep cmdId line p = .cont (some (pilarRhs line))) ∧
    (∀ (cmdId : Int) (line : List Char) (p : Option (List Char)),
        (pilarCompleteTag cmdId).isPrefixOf line = true → line.contains '=' = false →
        pilarLineStep cmdId line p = .done (p.getD "OK".data)) ∧
    (∀ (cmdId : Int) (line : List Char) (p : Option (List Char)),
        (pilarFailedTag cmdId).isPrefixOf line = true →
        (pilarCompleteTag cmdId).isPrefixOf line = false →
        pilarLineStep cmdId line p = .fail) ∧
    (∀ (cmdId : Int) (line : List Char) (p : Option (List Char)),
        (pilarIdTag cmdId).isPrefixOf line = false →
        (pilarCompleteTag cmdId).isPrefixOf line = false →
        (pilarFailedTag cmdId).isPrefixOf line = false →
        pilarLineStep cmdId line p = .cont p) ∧
    pilarExecLoop 1 none ["1 MOUNT.RA=12.5000".data, "1 COMMAND COMPLETE".data] =
      .ok "12.5000".data := by
  refine ⟨?_, ?_, ?_, ?_, by decide⟩
  · intro cmdId line p h1 h2 h3 h4
    simp_all [pilarLineStep]
  · intro cmdId line p h1 h2
    simp_all [pilarLineStep]
  · intro cmdId line p h1 h2
    simp_all [pilarLineStep]
  · intro cmdId line p h1 h2 h3
    simp_all [pilarLineStep]

/-- Witness for C5: the value line `"1 MOUNT.RA=12.5000"` for ID 1 captures
`"12.5000"` and does not terminate the wait. -/
theorem C5_witness :
    pilarLineStep 1 "1 MOUNT.RA=12.5000".data none =
      .cont (some (pilarRhs "1 MOUNT.RA=12.5000".data)) :=
  C5_response_loop_rules.1 1 "1 MOUNT.RA=12.5000".data none
    (by decide) (by decide) (by decide) (by decide)

/-! ## C3 -/

/-- A configured resource-lock map where the mount's tracking command is
bound to the shared resource `"mount"` (the config file itself is not part
of the sources; any map with a shared resource exhibits the behavior). -/
def c3ResourceMap : List (String × String) := [("POINTING.TRACK", "mount")]

/-- A lock-respecting schedule in which a `get` (task 1) and a `put`
(task 2) on the same resource overlap on the wire. -/
def c3OverlapTrace : List WireEvent :=
  [.send 1, .lockAcq "mount", .send 2, .terminal 1, .terminal 2, .lockRel "mount"]

/-- C3 counterexample: the claim says an exchange of EVERY operation (both
`get` and `put`) whose variable maps to a resource holds that resource's
mutex for the whole exchange, so two such commands never overlap.  But
`get` calls `_execute_on_pooled_connection` directly (line 152) and never
acquires any resource lock, so the schedule `c3OverlapTrace` - a valid
interleaving of a `get` and a `put` both on `"POINTING.TRACK" -> "mount"`,
respecting every mutex - has the put's send before the get's terminal
line: the two wire exchanges overlap. -/
theorem C3_counterexample :
    c3OverlapTrace ∈
      interleavings (pilarGetWireEvents 1)
        (pilarPutWireEvents c3ResourceMap "POINTING.TRACK" 2) ∧
    lockValid [] c3OverlapTrace = true ∧
    exchangesSerialized c3OverlapTrace 1 2 = false := by
  decide

/-- C3 amended: serialization does hold between `put` operations - the only
operations routed through `_execute_command_safely`.  Every lock-respecting
interleaving of two `put`s whose variable maps to the same resource is
serialized (one terminal precedes the other send); a `put` whose variable
maps to no resource, and every `get`, runs with no lock events at all. -/
theorem C3_put_put_serialized :
    ((interleavings (pilarPutWireEvents c3ResourceMap "POINTING.TRACK" 1)
        (pilarPutWireEvents c3ResourceMap "POINTING.TRACK" 2)).all
      (fun tr => !lockValid [] tr || exchangesSerialized tr 1 2)) = true ∧
    pilarPutWireEvents c3ResourceMap "FOCUS.MOTION" 3 = [.send 3, .terminal 3] ∧
    pilarGetWireEvents 4 = [.send 4, .terminal 4] := by
  decide

/-! ## C4 -/

/-- A command map binding `telescope.rightascension` to the Pilar command
`"POINTING.RA"`. -/
def c4CmdMap : List (String × List (String × String)) :=
  [("telescope", [("rightascension", "POINTING.RA")])]

/-- C4 counterexample: the claim says `get`/`put` on a never-connected
connector fail with a `ConnectionError`-kind failure that PROPAGATES to the
caller rather than being caught and converted.  On the fresh (disconnected)
state, `get` raises nothing (`raised = none`) and returns the null value
`None`, and `put` returns the `"failed"` status dict - the
`ConnectionError` raised inside `_execute_on_pooled_connection` is caught
by the blanket `except Exception` at the connector boundary. -/
theorem C4_counterexample :
    (pilarGetOp pilarInit c4CmdMap "telescope" "rightascension" false false
        ["1 COMMAND COMPLETE".data]).raised = none ∧
    (pilarGetOp pilarInit c4CmdMap "telescope" "rightascension" false false
        ["1 COMMAND COMPLETE".data]).value = none ∧
    (pilarPutOp pilarInit c4CmdMap "telescope" "rightascension"
        [("rightascension", "1.5".data)] false false []).status = "failed" := by
  decide

/-- C4 amended: on a connector whose `connect()` has not succeeded, the
executor does fail fast - `_execute_on_pooled_connection` raises its
`ConnectionError` before any pool checkout and before any bytes are sent,
leaving the state untouched - but `get` and `put` catch it at the connector
boundary like any other exception, so the caller sees `None` (get) or a
`{"status": "failed"}` dict (put), not the exception. -/
theorem C4_not_connected_caught_at_boundary (st : PilarState) (cmd : List Char)
    (cmdMap : List (String × List (String × String))) (kind varName pilarCmd : String)
    (data : List (String × List Char)) (idTimedOut connTimedOut : Bool)
    (lines : List (List Char)) (hc : st.connected = false)
    (hm : lookupCmd cmdMap kind varName = some pilarCmd) :
    pilarExecOnPooled st cmd idTimedOut connTimedOut lines =
      ⟨st, .error .notConnected, []⟩ ∧
    pilarGetOp st cmdMap kind varName idTimedOut connTimedOut lines =
      ⟨st, none, none, []⟩ ∧
    (pilarPutOp st cmdMap kind varName data idTimedOut connTimedOut lines).status =
      "failed" ∧
    (pilarPutOp st cmdMap kind varName data idTimedOut connTimedOut lines).sent = [] := by
  have hexec : ∀ c, pilarExecOnPooled st c idTimedOut connTimedOut lines =
      ⟨st, .error .notConnected, []⟩ := by
    intro c
    simp [pilarExecOnPooled, hc]
  refine ⟨hexec cmd, ?_, ?_, ?_⟩
  · simp [pilarGetOp, hm, hexec]
  · rcases data with _ | ⟨kv, rest⟩ <;> simp [pilarPutOp, hm, hexec]
  · rcases data with _ | ⟨kv, rest⟩ <;> simp [pilarPutOp, hm, hexec]

/-- Witness for C4's amended theorem at the fresh connector state and the
concrete command map. -/
theorem C4_witness :
    pilarExecOnPooled pilarInit "GET POINTING.RA".data false false [] =
      ⟨pilarInit, .error .notConnected, []⟩ ∧
    pilarGetOp pilarInit c4CmdMap "telescope" "rightascension" false false [] =
      ⟨pilarInit, none, none, []⟩ ∧
    (pilarPutOp pilarInit c4CmdMap "telescope" "rightascension"
        [("rightascension", "1.5".data)] false false []).status = "failed" ∧
    (pilarPutOp pilarInit c4CmdMap "telescope" "rightascension"
        [("rightascension", "1.5".data)] false false []).sent = [] :=
  C4_not_connected_caught_at_boundary pilarInit "GET POINTING.RA".data c4CmdMap
    "telescope" "rightascension" "POINTING.RA" [("rightascension", "1.5".data)]
    false false [] (by decide) (by decide)

/-! ## C6 -/

/-- C6: UDP datagram framing.  A command shorter than the packet size is
padded with zero bytes to exactly the configured size, starting with the
encoded command followed by zeros only; a received datagram is split at its
first zero byte; the response `"**** OKAY foo"` decodes to `"foo"` (the
fixed 10-character prefix is stripped); a response that does not begin with
the marker is a command-level failure. -/
theorem C6_udp_framing :
    (∀ (cmd : String) (size : Nat), (encodeAscii cmd).length < size →
        (ljustZero (encodeAscii cmd) size).length = size ∧
        (encodeAscii cmd).isPrefixOf (ljustZero (encodeAscii cmd) size) = true ∧
        ∀ b ∈ (ljustZero (encodeAscii cmd) size).drop (encodeAscii cmd).length, b = 0) ∧
    (∀ pre post : List Nat, (0 : Nat) ∉ pre →
        splitFirstZero (pre ++ 0 :: post) = pre) ∧
    irisDecodeResponse "**** OKAY foo" = .ok "foo" ∧
    (∀ resp : String, irisOkayMarker.isPrefixOf resp.data = false →
        irisDecodeResponse resp = .error (.unexpectedResponse resp)) := by
  refine ⟨?_, ?_, by decide, ?_⟩
  · intro cmd size hlt
    refine ⟨?_, ?_, ?_⟩
    · simp [ljustZero]
      omega
    · simp [ljustZero, List.isPrefixOf_iff_prefix]
    · intro b hb
      rw [ljustZero, List.drop_left] at hb
      exact List.eq_of_mem_replicate hb
  · intro pre post hpre
    induction pre with
    | nil => simp [splitFirstZero]
    | cons a rest ih =>
      have ha : a ≠ 0 := fun h => hpre (h ▸ List.mem_cons_self a rest)
      have hrest : (0 : Nat) ∉ rest := fun h => hpre (List.mem_cons_of_mem a h)
      simpa [splitFirstZero, ha] using ih hrest
  · intro resp hm
    simp [irisDecodeResponse, hm]

/-- Witness for C6: the command `"EXPOSE 1"` padded to packet size 12, a
response datagram split at its first zero byte, and a non-marker response
failing. -/
theorem C6_witness :
    (ljustZero (encodeAscii "EXPOSE 1") 12).length = 12 ∧
    splitFirstZero ([42, 7] ++ 0 :: [9]) = [42, 7] ∧
    irisDecodeResponse "ERR" = .error (.unexpectedResponse "ERR") :=
  ⟨(C6_udp_framing.1 "EXPOSE 1" 12 (by decide)).1,
    C6_udp_framing.2.1 [42, 7] [9] (by decide),
    C6_udp_framing.2.2.2 "ERR" (by decide)⟩

/-! ## C7 -/

/-- C7: TLS gating in `_create_pooled_connection`.  A greeting without the
`"TLS"` token never triggers an upgrade (no `ENC TLS` request, no
handshake, the plain session is returned); a greeting with the token but a
reply without `"ENC OK"` sends the request, performs no handshake, and the
session creation fails (`None`, the caught `ConnectionError`); a `None`
creation is not added to the pool by `connect`; only after the `"ENC OK"`
acknowledgement is the TLS handshake performed on that same socket. -/
theorem C7_tls_gating :
    (∀ (welcome encReply : List Char) (t : Nat),
        containsSubChars "TLS".data welcome = false →
        pilarCreatePooledConnection welcome encReply t = ⟨false, false, some t⟩) ∧
    (∀ (welcome encReply : List Char) (t : Nat),
        containsSubChars "TLS".data welcome = true →
        containsSubChars "ENC OK".data encReply = false →
        pilarCreatePooledConnection welcome encReply t = ⟨true, false, none⟩) ∧
    (∀ q : AQueue Nat, pilarAddCreated q [none] = q) ∧
    (∀ (welcome encReply : List Char) (t : Nat),
        containsSubChars "TLS".data welcome = true →
        containsSubChars "ENC OK".data encReply = true →
        pilarCreatePooledConnection welcome encReply t = ⟨true, true, some t⟩) := by
  refine ⟨?_, ?_, fun q => rfl, ?_⟩
  · intro welcome encReply t h1
    simp [pilarCreatePooledConnection, h1]
  · intro welcome encReply t h1 h2
    simp [pilarCreatePooledConnection, h1, h2]
  · intro welcome encReply t h1 h2
    simp [pilarCreatePooledConnection, h1, h2]

/-- Witness for C7: a plain greeting yields an un-upgraded session; a TLS
greeting without acknowledgement yields no session. -/
theorem C7_witness :
    pilarCreatePooledConnection "WELCOME PILAR".data "X".data 3 =
      ⟨false, false, some 3⟩ ∧
    pilarCreatePooledConnection "PILAR TLS READY".data "NOPE".data 4 =
      ⟨true, false, none⟩ :=
  ⟨C7_tls_gating.1 "WELCOME PILAR".data "X".data 3 (by decide),
    C7_tls_gating.2.1 "PILAR TLS READY".data "NOPE".data 4 (by decide) (by decide)⟩

/-! ## C8 -/

/-- Command map for the concrete Pilar action scenario. -/
def c8CmdMap : List (String × List (String × String)) :=
  [("telescope", [("targetra", "OBJECT.RA"), ("dome", "DOME.SLIT")])]

/-- An action whose first step has a literal value and whose second step
needs the caller argument `ra`. -/
def c8Steps : List PilarStep :=
  [⟨"telescope", "dome", .str "OPEN"⟩, ⟨"telescope", "targetra", .str "{ra}"⟩]

/-- A connected Pilar state with ID `1` and one pooled connection. -/
def c8State : PilarState :=
  { connected := true
    idPool := { maxsize := 0, items := [1] }
    connPool := { maxsize := 0, items := [9] } }

/-- C8: a step whose value is a placeholder the caller did not supply makes
`call()` return a failure status, with the failing step and everything
after it sending zero bytes, while the steps before it have already been
sent.  First part: for the IRIS CCD `call` loop, whenever the steps are
`pre ++ failStep :: post` with every step of `pre` building and executing
successfully and `failStep`'s placeholder missing from `data`, the result
is the `"failed"` status and the wire saw exactly the commands of `pre`.
Second part: the same behavior on the Pilar connector's `call` for a
concrete two-step action whose second step misses its argument - only the
first step's `SET` frame was sent. -/
theorem C8_missing_argument_aborts_action
    (wire : List Char → Except IrisError (List Char)) (data : List (String × List Char))
    (fname : String) (lastResp : Option (List Char)) (sent0 : List (List Char))
    (pre : List IrisStep) (failStep : IrisStep) (post : List IrisStep)
    (hpre : ∀ s ∈ pre, irisBuildStepCommand s data = .ok (irisBuiltCmd data s) ∧
        ∃ r, wire (irisBuiltCmd data s) = .ok r)
    (hfail : ∃ m, irisBuildStepCommand failStep data = .error m) :
    ((irisCallGo wire data fname lastResp sent0 (pre ++ failStep :: post)).1.status =
        "failed" ∧
      (irisCallGo wire data fname lastResp sent0 (pre ++ failStep :: post)).2 =
        sent0 ++ pre.map (irisBuiltCmd data)) ∧
    ((pilarCallGo c8CmdMap "telescope" "open_and_slew" [] false false
        ["1 COMMAND COMPLETE".data] c8State [] c8Steps).result.status = "failed" ∧
      (pilarCallGo c8CmdMap "telescope" "open_and_slew" [] false false
        ["1 COMMAND COMPLETE".data] c8State [] c8Steps).sent =
        ["1 SET DOME.SLIT=OPEN\n".data]) := by
  refine ⟨?_, by decide⟩
  induction pre generalizing lastResp sent0 with
  | nil =>
    obtain ⟨m, hm⟩ := hfail
    simp [irisCallGo, hm]
  | cons s rest ih =>
    obtain ⟨hb, r, hr⟩ := hpre s (List.mem_cons_self s rest)
    have hrest : ∀ s' ∈ rest, irisBuildStepCommand s' data = .ok (irisBuiltCmd data s') ∧
        ∃ r', wire (irisBuiltCmd data s') = .ok r' :=
      fun s' hs' => hpre s' (List.mem_cons_of_mem s hs')
    have := ih (some r) (sent0 ++ [irisBuiltCmd data s]) hrest
    simp only [List.cons_append, irisCallGo, hb, hr]
    simpa [List.append_assoc] using this

/-- Witness for C8: a two-step IRIS action whose second step's `\x7bgain\x7d`
placeholder is missing - the first step's command is the only one sent and
the call fails. -/
theorem C8_witness :
    ((irisCallGo (fun _ => .ok "OK".data) [] "setup" none []
        ([⟨"INIT", none⟩] ++ ⟨"GAIN", some (.str "{gain}")⟩ :: [])).1.status = "failed" ∧
      (irisCallGo (fun _ => .ok "OK".data) [] "setup" none []
        ([⟨"INIT", none⟩] ++ ⟨"GAIN", some (.str "{gain}")⟩ :: [])).2 =
        [] ++ [⟨"INIT", none⟩].map (irisBuiltCmd [])) ∧
    ((pilarCallGo c8CmdMap "telescope" "open_and_slew" [] false false
        ["1 COMMAND COMPLETE".data] c8State [] c8Steps).result.status = "failed" ∧
      (pilarCallGo c8CmdMap "telescope" "open_and_slew" [] false false
        ["1 COMMAND COMPLETE".data] c8State [] c8Steps).sent =
        ["1 SET DOME.SLIT=OPEN\n".data]) :=
  C8_missing_argument_aborts_action (fun _ => .ok "OK".data) [] "setup" none []
    [⟨"INIT", none⟩] ⟨"GAIN", some (.str "{gain}")⟩ []
    (by intro s hs; simp at hs; subst hs; exact ⟨by decide, "OK".data, rfl⟩)
    ⟨"Missing argument ".data ++ "gain".data, by decide⟩

/-! ## C9 -/

/-- C9 counterexample: the claim says every successfully executed action
returns a status that includes the last primitive's response - for BOTH
connectors.  On the Pilar connector a fully successful one-step action
returns exactly `{"status": "action_slew_completed"}`: no response entry at
all (`put` itself already discards the wire response, returning
`value_set`), even though a frame was sent and answered. -/
theorem C9_counterexample :
    (pilarCallGo [("telescope", [("targetra", "OBJECT.RA")])] "telescope" "slew"
        [("ra", "12.5".data)] false false ["1 COMMAND COMPLETE".data]
        { connected := true
          idPool := { maxsize := 0, items := [1] }
          connPool := { maxsize := 0, items := [9] } }
        [] [⟨"telescope", "targetra", .str "{ra}"⟩]).result =
      ⟨"action_slew_completed", none, none⟩ ∧
    (pilarCallGo [("telescope", [("targetra", "OBJECT.RA")])] "telescope" "slew"
        [("ra", "12.5".data)] false false ["1 COMMAND COMPLETE".data]
        { connected := true
          idPool := { maxsize := 0, items := [1] }
          connPool := { maxsize := 0, items := [9] } }
        [] [⟨"telescope", "targetra", .str "{ra}"⟩]).sent =
      ["1 SET OBJECT.RA=12.5\n".data] := by
  decide

/-- C9 amended: the property holds for the IRIS CCD (UDP) connector: when
every step of a known action builds and executes successfully, `call`
returns `{"status": f"action_{name}_completed", "response": last_response}`
where `last_response` is the wire response of the last step's command.  The
Pilar connector's `call` instead returns only the completion status (see
the counterexample). -/
theorem C9_iris_call_returns_last_response
    (wire : List Char → Except IrisError (List Char)) (data : List (String × List Char))
    (fname : String) (lastResp : Option (List Char)) (sent0 : List (List Char))
    (initSteps : List IrisStep) (lastStep : IrisStep) (c r : List Char)
    (hinit : ∀ s ∈ initSteps, irisBuildStepCommand s data = .ok (irisBuiltCmd data s) ∧
        ∃ r', wire (irisBuiltCmd data s) = .ok r')
    (hlast : irisBuildStepCommand lastStep data = .ok c)
    (hw : wire c = .ok r) :
    (irisCallGo wire data fname lastResp sent0 (initSteps ++ [lastStep])).1 =
      ⟨"action_" ++ fname ++ "_completed", some r, none⟩ := by
  induction initSteps generalizing lastResp sent0 with
  | nil =>
    simp [irisCallGo, hlast, hw]
  | cons s rest ih =>
    obtain ⟨hb, r', hr'⟩ := hinit s (List.mem_cons_self s rest)
    have hrest : ∀ s' ∈ rest, irisBuildStepCommand s' data = .ok (irisBuiltCmd data s') ∧
        ∃ r'', wire (irisBuiltCmd data s') = .ok r'' :=
      fun s' hs' => hinit s' (List.mem_cons_of_mem s hs')
    have := ih (some r') (sent0 ++ [irisBuiltCmd data s]) hrest
    simp only [List.cons_append, irisCallGo, hb, hr']
    exact this

/-- Witness for C9's amended theorem: a two-step action whose last command
`"TEMP"` is answered with `"-40.0"`; the call result carries that
response. -/
theorem C9_witness :
    (irisCallGo
        (fun cmd => if cmd = "TEMP".data then .ok "-40.0".data else .ok "OK".data)
        [] "cool" none [] ([⟨"INIT", none⟩] ++ [⟨"TEMP", none⟩])).1 =
      ⟨"action_cool_completed", some "-40.0".data, none⟩ :=
  C9_iris_call_returns_last_response
    (fun cmd => if cmd = "TEMP".data then .ok "-40.0".data else .ok "OK".data)
    [] "cool" none [] [⟨"INIT", none⟩] ⟨"TEMP", none⟩ "TEMP".data "-40.0".data
    (by intro s hs; simp at hs; subst hs; exact ⟨by decide, "OK".data, by decide⟩)
    (by decide) (by decide)

/-! ## C10 -/

/-- C10: whenever the response datagram does not begin with `"**** OKAY"`,
`_execute_command` first disconnects (transport closed and `_connected`
cleared by `disconnect()`) and only then surfaces the failure; a response
timeout instead leaves the connection open (the `TimeoutError` is raised
from the `except asyncio.TimeoutError` clause, which the `except
Exception` clause of the same `try` does not re-catch); a marker response
also leaves the connection open. -/
theorem C10_nonmarker_response_disconnects (st : IrisState) (packetSize : Nat)
    (cmd : String) (data : List Nat) (hc : st.connected = true)
    (hm : irisOkayMarker.isPrefixOf (decodeAscii (splitFirstZero data)).data = false) :
    (irisExecuteCommand st packetSize cmd (.response data)).state.connected = false ∧
    (irisExecuteCommand st packetSize cmd (.response data)).result =
      .error (.unexpectedResponse (decodeAscii (splitFirstZero data))) ∧
    (irisExecuteCommand st packetSize cmd .timeout).state = st ∧
    (irisExecuteCommand st packetSize cmd .timeout).result = .error .responseTimeout ∧
    (∀ data2 : List Nat,
        irisOkayMarker.isPrefixOf (decodeAscii (splitFirstZero data2)).data = true →
        (irisExecuteCommand st packetSize cmd (.response data2)).state = st) := by
  refine ⟨?_, ?_, ?_, ?_, ?_⟩
  · simp [irisExecuteCommand, irisDecodeResponse, hc, hm]
  · simp [irisExecuteCommand, irisDecodeResponse, hc, hm]
  · simp [irisExecuteCommand, hc]
  · simp [irisExecuteCommand, hc]
  · intro data2 hm2
    simp [irisExecuteCommand, irisDecodeResponse, hc, hm2]

/-- Witness for C10: a connected connector receiving the non-marker
response `"ERROR bad"` ends up disconnected with an unexpected-response
error, while a timeout leaves it connected. -/
theorem C10_witness :
    (irisExecuteCommand ⟨true⟩ 16 "STATUS"
        (.response (encodeAscii "ERROR bad"))).state.connected = false ∧
    (irisExecuteCommand ⟨true⟩ 16 "STATUS"
        (.response (encodeAscii "ERROR bad"))).result =
      .error (.unexpectedResponse (decodeAscii (splitFirstZero (encodeAscii "ERROR bad")))) ∧
    (irisExecuteCommand ⟨true⟩ 16 "STATUS" .timeout).state = ⟨true⟩ ∧
    (irisExecuteCommand ⟨true⟩ 16 "STATUS" .timeout).result = .error .responseTimeout ∧
    (∀ data2 : List Nat,
        irisOkayMarker.isPrefixOf (decodeAscii (splitFirstZero data2)).data = true →
        (irisExecuteCommand ⟨true⟩ 16 "STATUS" (.response data2)).state = ⟨true⟩) :=
  C10_nonmarker_response_disconnects ⟨true⟩ 16 "STATUS" (encodeAscii "ERROR bad")
    (by decide) (by decide)

end Obsrv
